import Mathlib

/-!
Shallow embedding of the ship logic of a small 2D space-combat game
(files `game/ship.py` and `game/conf.py`), together with a model of the
parts of the host library that this code drives: the per-event tick stamp
returned by the tick counter, repeat timers set and cancelled through the
set-timer call, sprite groups (a plain group and a single-sprite group) and
the rectangle-overlap test.  Real arithmetic of the source is embedded as
exact rational arithmetic.
-/

/-- Configuration constants used by `game/ship.py`.
Modelled from the spec: `ship.py` imports `MAX_TORPEDOES_PER_SHIP`,
`MOVEMENT_TIME_DELAY_MS`, `PHASER_FIRE_CD` and `TORPEDO_FIRE_CD` from
`game.conf`, but the revision of `game/conf.py` in the sources defines other
names, so the four constants are kept abstract here.  `cosDeg a` and
`sinDeg a` stand for the host math library values of cosine and sine at
`a * pi / 180` radians (heading `a` in degrees), kept abstract because the
source computes them in floating point. -/
structure Conf where
  maxTorpedoes : Nat
  movementDelay : Nat
  phaserCD : Nat
  torpedoCD : Nat
  cosDeg : ℚ → ℚ
  sinDeg : ℚ → ℚ

/-- Keyboard keys that `HumanShip` reacts to: `K_a` (rotate ccw), `K_d`
(rotate cw), `K_s` (thrust), `K_q` (fire phaser), `K_e` (fire torpedo). -/
inductive Key where
  | a
  | d
  | s
  | q
  | e
  deriving DecidableEq

/-- The five per-ship repeat timers created in `HumanShip.__init__`:
rotate-ccw, rotate-cw, accelerate, fire-torpedoes, fire-phaser. -/
inductive TimerKind where
  | cc
  | cw
  | acc
  | torp
  | phz
  deriving DecidableEq

/-- Events consumed by `HumanShip.handle_events`: key-down and key-up events
for a key, and the custom repeat events generated by the host timers. -/
inductive Event where
  | keydown (k : Key)
  | keyup (k : Key)
  | rep (t : TimerKind)
  deriving DecidableEq

/-- A photon torpedo as constructed in `_handle_firing_weapon_events`:
`PhotonTorpedo(start_pos, start_ang, start_vel)`. -/
structure Torpedo where
  pos : ℚ × ℚ
  ang : ℚ
  vel : ℚ × ℚ
  deriving DecidableEq

/-- A phaser beam as constructed in `_handle_firing_weapon_events`:
`Phaser(source_ship, start_pos, start_vel, start_ang)` (the back reference
to the source ship is not part of the state read by the handlers and is
omitted). -/
structure PhaserBeam where
  pos : ℚ × ℚ
  vel : ℚ × ℚ
  ang : ℚ
  deriving DecidableEq

/-- State of a `HumanShip`: the fields of `SpaceEntity`, `BaseShip` and
`HumanShip` that the event handlers read or write, plus the host-side state
of its five repeat timers.  For a timer, `some t` means the timer is running
and was last set (or last delivered an event) at tick `t`; `none` means it
is cancelled.  `phaser_group` models the single-sprite group, and
`torpedo_group` the plain sprite group, as lists of projectile records. -/
structure ShipState where
  pos : ℚ × ℚ
  vel : ℚ × ℚ
  ang : ℚ
  alive : Bool
  rotate_ccw_lock : Bool
  torpedo_group : List Torpedo
  phaser_group : List PhaserBeam
  phaser : Option PhaserBeam
  phaser_last_fired : Option Nat
  torpedo_last_fired : Option Nat
  last_collided_ship : Option Nat
  cc_timer : Option Nat
  cw_timer : Option Nat
  acc_timer : Option Nat
  torp_timer : Option Nat
  phz_timer : Option Nat
  deriving DecidableEq

/-- State right after `HumanShip.__init__` (entity position, velocity and
angle are passed through; both projectile groups are empty, the phaser slot
and both last-fired timestamps are `None`, the rotation lock is off and no
timer has been set).  Whether the sprite is alive depends on group
membership managed outside the class, so it is a parameter. -/
def initState (start_pos : ℚ × ℚ) (start_vel : ℚ × ℚ) (start_ang : ℚ)
    (alv : Bool) : ShipState :=
  ⟨start_pos, start_vel, start_ang, alv, false, [], [], none, none, none,
    none, none, none, none, none, none⟩

/-- Basis tick of one of the five repeat timers. -/
def getTimer (st : ShipState) : TimerKind → Option Nat
  | .cc => st.cc_timer
  | .cw => st.cw_timer
  | .acc => st.acc_timer
  | .torp => st.torp_timer
  | .phz => st.phz_timer

/-- Replace the basis tick of one of the five repeat timers. -/
def setTimer (st : ShipState) (t : TimerKind) (v : Option Nat) : ShipState :=
  match t with
  | .cc => {st with cc_timer := v}
  | .cw => {st with cw_timer := v}
  | .acc => {st with acc_timer := v}
  | .torp => {st with torp_timer := v}
  | .phz => {st with phz_timer := v}

/-- Period each timer is set with in the source: the movement timers use
`MOVEMENT_TIME_DELAY_MS`, the weapon timers use their cooldown constants. -/
def period (conf : Conf) : TimerKind → Nat
  | .cc => conf.movementDelay
  | .cw => conf.movementDelay
  | .acc => conf.movementDelay
  | .torp => conf.torpedoCD
  | .phz => conf.phaserCD

/-- The repeat timer belonging to each key. -/
def timerOfKey : Key → TimerKind
  | .a => .cc
  | .d => .cw
  | .s => .acc
  | .q => .phz
  | .e => .torp

/-- Python float modulo with a positive modulus, as used by `ang %= 360`:
the representative of `x` modulo `m` lying in `[0, m)`. -/
def pymod (x m : ℚ) : ℚ := x - m * (⌊x / m⌋ : ℤ)

/-- Embedding of `BaseShip.check_phaser_on_cooldown`, at current tick `now`.
The source tests `if not self.phaser_last_fired`, which treats both `None`
and a timestamp of `0` as never fired; otherwise the phaser is on cooldown
iff `now - last <= PHASER_FIRE_CD`. -/
def check_phaser_on_cooldown (conf : Conf) (now : Nat) (st : ShipState) :
    Bool :=
  match st.phaser_last_fired with
  | none => false
  | some t => if t = 0 then false else decide (now - t ≤ conf.phaserCD)

/-- Embedding of `BaseShip.check_torpedo_on_cooldown`, at current tick
`now`, with the same falsy test on the timestamp. -/
def check_torpedo_on_cooldown (conf : Conf) (now : Nat) (st : ShipState) :
    Bool :=
  match st.torpedo_last_fired with
  | none => false
  | some t => if t = 0 then false else decide (now - t ≤ conf.torpedoCD)

/-- Embedding of `HumanShip._handle_movement_events` for one event arriving
at tick `now`.  Key-down on `a` / `d` sets the rotation lock, turns by
22.5 degrees and starts the repeat timer; key-down on `s` adds the heading
unit vector to the velocity and starts its timer; key-up resets the lock as
in the source and cancels the timer; the repeat events turn (guarded by the
lock) or thrust, the rotation repeats normalizing the angle modulo 360. -/
def handleMovement (conf : Conf) (st : ShipState) (now : Nat) :
    Event → ShipState
  | .keydown .a =>
      {st with
        rotate_ccw_lock := true
        ang := st.ang - 22.5
        cc_timer := some now}
  | .keydown .d =>
      {st with
        rotate_ccw_lock := false
        ang := st.ang + 22.5
        cw_timer := some now}
  | .keydown .s =>
      {st with
        vel := (st.vel.1 + conf.cosDeg st.ang, st.vel.2 + conf.sinDeg st.ang)
        acc_timer := some now}
  | .keyup .a => {st with rotate_ccw_lock := false, cc_timer := none}
  | .keyup .d => {st with rotate_ccw_lock := true, cw_timer := none}
  | .keyup .s => {st with acc_timer := none}
  | .rep .cc =>
      {st with
        ang := pymod (if st.rotate_ccw_lock then st.ang - 22.5 else st.ang)
          360}
  | .rep .cw =>
      {st with
        ang := pymod (if st.rotate_ccw_lock then st.ang else st.ang + 22.5)
          360}
  | .rep .acc =>
      {st with
        vel := (st.vel.1 + conf.cosDeg st.ang, st.vel.2 + conf.sinDeg st.ang)}
  | _ => st

/-- Embedding of `HumanShip._handle_firing_weapon_events` for one event at
tick `now`.  Key-down on `q` / `e` first (re)starts the weapon repeat timer
and then fires if allowed (phaser: not on cooldown; torpedo: below the cap
and not on cooldown); key-up cancels the weapon timer; the phaser repeat
event fires unconditionally and the torpedo repeat event fires whenever the
count is below the cap. -/
def handleFiring (conf : Conf) (st : ShipState) (now : Nat) :
    Event → ShipState
  | .keydown .q =>
      let st1 := {st with phz_timer := some now}
      if check_phaser_on_cooldown conf now st1 then st1
      else
        let p : PhaserBeam := ⟨st1.pos, st1.vel, st1.ang⟩
        {st1 with
          phaser := some p
          phaser_group := [p]
          phaser_last_fired := some now}
  | .keydown .e =>
      let st1 := {st with torp_timer := some now}
      if st1.torpedo_group.length < conf.maxTorpedoes
          ∧ ¬check_torpedo_on_cooldown conf now st1 then
        {st1 with
          torpedo_group := ⟨st1.pos, st1.ang, st1.vel⟩ :: st1.torpedo_group
          torpedo_last_fired := some now}
      else st1
  | .keyup .q => {st with phz_timer := none}
  | .keyup .e => {st with torp_timer := none}
  | .rep .phz =>
      let p : PhaserBeam := ⟨st.pos, st.vel, st.ang⟩
      {st with
        phaser := some p
        phaser_last_fired := some now
        phaser_group := [p]}
  | .rep .torp =>
      if st.torpedo_group.length < conf.maxTorpedoes then
        {st with
          torpedo_last_fired := some now
          torpedo_group := ⟨st.pos, st.ang, st.vel⟩ :: st.torpedo_group}
      else st
  | _ => st

/-- Embedding of `HumanShip.handle_events`: a dead sprite returns at once,
otherwise the movement handler runs and then the weapon handler. -/
def handle_events (conf : Conf) (st : ShipState) (now : Nat) (ev : Event) :
    ShipState :=
  if st.alive then
    handleFiring conf (handleMovement conf st now ev) now ev
  else st

/-- Host-side bookkeeping: when a repeat timer delivers its event at tick
`now`, the timer keeps running with its next delivery counted from `now`. -/
def tickAdvance (st : ShipState) (now : Nat) : Event → ShipState
  | .rep t => setTimer st t (some now)
  | _ => st

/-- Admissibility of one stamped event against the current timer state:
a repeat event can only be delivered by a running timer, at least one full
period after the timer was last set or last delivered.  Key events may
arrive at any tick. -/
def eventOk (conf : Conf) (st : ShipState) : Nat × Event → Bool
  | (now, .rep t) =>
      match getTimer st t with
      | some b => decide (b + period conf t ≤ now)
      | none => false
  | _ => true

/-- One step of the event loop for this ship: the host advances the
delivering timer, then `handle_events` processes the event. -/
def stepEvent (conf : Conf) (st : ShipState) (e : Nat × Event) : ShipState :=
  handle_events conf (tickAdvance st e.1 e.2) e.1 e.2

/-- Process a whole stamped event sequence. -/
def runEvents (conf : Conf) (st : ShipState) :
    List (Nat × Event) → ShipState
  | [] => st
  | e :: tr => runEvents conf (stepEvent conf st e) tr

/-- A stamped event sequence the host can actually deliver from state `st`:
every repeat event is admissible in the state it arrives in. -/
def TraceOk (conf : Conf) (st : ShipState) : List (Nat × Event) → Bool
  | [] => true
  | e :: tr => eventOk conf st e && TraceOk conf (stepEvent conf st e) tr

/-- Entity-type tag of a `SpaceEntity`, from `game.conf.SpaceEntityType`. -/
inductive EntityType where
  | ship
  | torpedo
  | phaser
  deriving DecidableEq

/-- The slice of a `SpaceEntity` read and written by the collision loop of
`BaseShip.update`: its type tag, position, velocity (components as exact
rationals) and the last-collision timestamp set on the iterating ship.
The `id` field stands for Python object identity, used by the
`sprite != self` test. -/
structure Entity where
  id : Nat
  entity_type : EntityType
  pos : ℚ × ℚ
  vel : ℚ × ℚ
  last_collided_ship : Option Nat
  deriving DecidableEq

/-- Velocity blend of the collision loop body in `BaseShip.update`: each
component of the iterating ship becomes 0.2 times its own old value plus
0.75 times the old value of the other ship, and symmetrically for the
other ship. -/
def blendVel (s o : Entity) : Entity × Entity :=
  ({s with vel := (s.vel.1 * 0.2 + o.vel.1 * 0.75,
      s.vel.2 * 0.2 + o.vel.2 * 0.75)},
   {o with vel := (o.vel.1 * 0.2 + s.vel.1 * 0.75,
      o.vel.2 * 0.2 + s.vel.2 * 0.75)})

/-- Overlap flags used by the position nudge.  The source calls
`check_overlapping_sprites(self, sprite)` (from `game/util.py`, not among
the sources; modelled from the spec as an abstract per-axis test `ov`) after
the velocities have been blended and the collision timestamp set. -/
def collideFlags (ov : Entity → Entity → Bool × Bool) (now : Nat)
    (s o : Entity) : Bool × Bool :=
  ov {(blendVel s o).1 with last_collided_ship := some now} (blendVel s o).2

/-- Body of the collision loop of `BaseShip.update` for one overlapping
pair: blend the velocities, record the collision tick on the iterating
ship, then nudge the other ship by its own new velocity on each axis whose
overlap flag is set (the x nudge first, then the y nudge on the possibly
moved position). -/
def collidePair (ov : Entity → Entity → Bool × Bool) (now : Nat)
    (s o : Entity) : Entity × Entity :=
  let s1 := {(blendVel s o).1 with last_collided_ship := some now}
  let o1 := (blendVel s o).2
  let f := collideFlags ov now s o
  let o2 := if f.1 then {o1 with pos := (o1.pos.1 + o1.vel.1, o1.pos.2)}
    else o1
  let o3 := if f.2 then {o2 with pos := (o2.pos.1, o2.pos.2 + o2.vel.2)}
    else o2
  (s1, o3)

/-- One iteration of the collision loop of `BaseShip.update`: the body runs
only when the other sprite is a different object, the bounding rectangles
overlap (the host rectangle test `cr`, abstract here) and the other sprite
is tagged as a ship. -/
def collideStep (cr : Entity → Entity → Bool)
    (ov : Entity → Entity → Bool × Bool) (now : Nat) (s o : Entity) :
    Entity × Entity :=
  if o.id ≠ s.id ∧ cr s o = true ∧ o.entity_type = EntityType.ship then
    collidePair ov now s o
  else (s, o)

/-- Concrete configuration used by the evaluation lemmas: two torpedoes per
ship, a 100 ms movement repeat delay, 150 ms weapon cooldowns, and a stub
host trigonometry. -/
def conf0 : Conf := ⟨2, 100, 150, 150, fun _ => 0, fun _ => 0⟩

/-- Concrete configuration with a torpedo cap of one, for states at the
cap. -/
def conf1 : Conf := ⟨1, 100, 150, 150, fun _ => 0, fun _ => 0⟩

/-- A live freshly constructed ship at the origin. -/
def ship0 : ShipState := initState (0, 0) (0, 0) 0 true

/-- A live freshly constructed ship with a heading of 360 degrees. -/
def ship360 : ShipState := initState (0, 0) (0, 0) 360 true

/-- A live ship holding one torpedo, at the cap of `conf1`. -/
def shipFull : ShipState :=
  {ship0 with torpedo_group := [⟨(0, 0), 0, (0, 0)⟩]}

/-- A dead ship (not a member of any sprite group). -/
def shipDead : ShipState := initState (0, 0) (0, 0) 0 false

/-- A concrete always-overlapping rectangle test. -/
def crAll : Entity → Entity → Bool := fun _ _ => true

/-- A concrete overlap-axis test reporting overlap on the x axis only. -/
def ovXonly : Entity → Entity → Bool × Bool := fun _ _ => (true, false)

/-- A concrete ship entity. -/
def entA : Entity := ⟨0, EntityType.ship, (0, 0), (1, 2), none⟩

/-- A second concrete ship entity. -/
def entB : Entity := ⟨1, EntityType.ship, (3, 4), (5, 6), none⟩

/-- The velocity of the first component of `collidePair` is the blended
velocity of the iterating ship. -/
lemma collidePair_fst_vel (ov : Entity → Entity → Bool × Bool) (now : Nat)
    (s o : Entity) :
    (collidePair ov now s o).1.vel = (blendVel s o).1.vel :=
  rfl

/-- The position nudges do not change the velocity of the other ship, so
the second component of `collidePair` keeps its blended velocity. -/
lemma collidePair_snd_vel (ov : Entity → Entity → Bool × Bool) (now : Nat)
    (s o : Entity) :
    (collidePair ov now s o).2.vel = (blendVel s o).2.vel := by
  simp only [collidePair]
  split <;> split <;> rfl

/-- The collision body never moves the iterating ship. -/
lemma collidePair_fst_pos (ov : Entity → Entity → Bool × Bool) (now : Nat)
    (s o : Entity) : (collidePair ov now s o).1.pos = s.pos := rfl

/-- Position of the other ship after the collision body: each axis is
shifted by the blended velocity exactly when its overlap flag is set. -/
lemma collidePair_snd_pos (ov : Entity → Entity → Bool × Bool) (now : Nat)
    (s o : Entity) :
    (collidePair ov now s o).2.pos
      = ((if (collideFlags ov now s o).1 then
            o.pos.1 + (blendVel s o).2.vel.1 else o.pos.1),
         (if (collideFlags ov now s o).2 then
            o.pos.2 + (blendVel s o).2.vel.2 else o.pos.2)) := by
  simp only [collidePair]
  cases hf1 : (collideFlags ov now s o).1
    <;> cases hf2 : (collideFlags ov now s o).2
    <;> simp [hf1, hf2, blendVel]

/-- One event step cannot push the torpedo count above the cap: every
branch that adds a torpedo is guarded by a strict count check. -/
lemma stepEvent_torpedo_le (conf : Conf) (st : ShipState) (e : Nat × Event)
    (h : st.torpedo_group.length ≤ conf.maxTorpedoes) :
    (stepEvent conf st e).torpedo_group.length ≤ conf.maxTorpedoes := by
  obtain ⟨now, ev⟩ := e
  cases ev with
  | keydown k =>
      cases k <;>
        simp only [stepEvent, tickAdvance, handle_events, handleMovement,
          handleFiring] <;>
        (repeat' split) <;> simp_all <;> omega
  | keyup k =>
      cases k <;>
        simp only [stepEvent, tickAdvance, handle_events, handleMovement,
          handleFiring] <;>
        (repeat' split) <;> simp_all
  | rep t =>
      cases t <;>
        simp only [stepEvent, tickAdvance, setTimer, handle_events,
          handleMovement, handleFiring] <;>
        (repeat' split) <;> simp_all <;> omega

/-- One event step keeps the single-sprite phaser group at size at most
one: every branch that touches it replaces its whole contents by one
beam. -/
lemma stepEvent_phaser_le (conf : Conf) (st : ShipState) (e : Nat × Event)
    (h : st.phaser_group.length ≤ 1) :
    (stepEvent conf st e).phaser_group.length ≤ 1 := by
  obtain ⟨now, ev⟩ := e
  cases ev with
  | keydown k =>
      cases k <;>
        simp only [stepEvent, tickAdvance, handle_events, handleMovement,
          handleFiring] <;>
        (repeat' split) <;> simp_all
  | keyup k =>
      cases k <;>
        simp only [stepEvent, tickAdvance, handle_events, handleMovement,
          handleFiring] <;>
        (repeat' split) <;> simp_all
  | rep t =>
      cases t <;>
        simp only [stepEvent, tickAdvance, setTimer, handle_events,
          handleMovement, handleFiring] <;>
        (repeat' split) <;> simp_all

/-- A movement timer that is cancelled stays cancelled across any step
whose event is neither the key-down of its key (the only place the source
sets it) nor a delivery of the timer itself. -/
lemma getTimer_stepEvent_none (conf : Conf) (st : ShipState) (now : Nat)
    (ev : Event) (k : Key) (hk : k = Key.a ∨ k = Key.d ∨ k = Key.s)
    (h : getTimer st (timerOfKey k) = none) (h1 : ev ≠ Event.keydown k)
    (h2 : ev ≠ Event.rep (timerOfKey k)) :
    getTimer (stepEvent conf st (now, ev)) (timerOfKey k) = none := by
  rcases hk with rfl | rfl | rfl <;>
    cases ev with
    | keydown k2 =>
        cases k2 <;>
          simp_all [stepEvent, tickAdvance, handle_events, handleMovement,
            handleFiring, getTimer, setTimer, timerOfKey] <;>
          (repeat' split) <;> simp_all
    | keyup k2 =>
        cases k2 <;>
          simp_all [stepEvent, tickAdvance, handle_events, handleMovement,
            handleFiring, getTimer, setTimer, timerOfKey] <;>
          (repeat' split) <;> simp_all
    | rep t =>
        cases t <;>
          simp_all [stepEvent, tickAdvance, handle_events, handleMovement,
            handleFiring, getTimer, setTimer, timerOfKey] <;>
          (repeat' split) <;> simp_all

/-- While a movement timer is cancelled and its key is not pressed again,
no admissible trace contains a repeat event of that timer. -/
lemma no_rep_of_timer_none (conf : Conf) (k : Key)
    (hk : k = Key.a ∨ k = Key.d ∨ k = Key.s) :
    ∀ (tr : List (Nat × Event)) (st : ShipState),
      getTimer st (timerOfKey k) = none → TraceOk conf st tr = true →
      (∀ p ∈ tr, p.2 ≠ Event.keydown k) →
      ∀ p ∈ tr, p.2 ≠ Event.rep (timerOfKey k) := by
  intro tr
  induction tr with
  | nil => intro st _ _ _ p hp; exact absurd hp (List.not_mem_nil p)
  | cons e tr ih =>
      intro st hnone hok hkd p hp
      rw [TraceOk, Bool.and_eq_true] at hok
      have he : e.2 ≠ Event.rep (timerOfKey k) := by
        intro hEq
        obtain ⟨t, ev⟩ := e
        simp only at hEq
        subst hEq
        simp [eventOk, hnone] at hok
      rcases List.mem_cons.mp hp with rfl | hp2
      · exact he
      · exact ih (stepEvent conf st e)
          (getTimer_stepEvent_none conf st e.1 e.2 k hk hnone
            (hkd e (List.mem_cons_self e tr)) he)
          hok.2 (fun q hq => hkd q (List.mem_cons_of_mem e hq)) p hp2

/-- C1: for every pair of distinct ship entities whose bounding rectangles
overlap, the collision step of `BaseShip.update` sets, on each axis
independently, the first ship's new velocity to 0.2 times its own old
velocity plus 0.75 times the other ship's old velocity, and symmetrically
the other ship's new velocity to 0.2 times its own old velocity plus 0.75
times the first ship's old velocity. -/
theorem collision_blends_velocities (cr : Entity → Entity → Bool)
    (ov : Entity → Entity → Bool × Bool) (now : Nat) (s o : Entity)
    (_hs : s.entity_type = EntityType.ship)
    (ho : o.entity_type = EntityType.ship)
    (hid : o.id ≠ s.id) (hcr : cr s o = true) :
    (collideStep cr ov now s o).1.vel
        = (s.vel.1 * 0.2 + o.vel.1 * 0.75, s.vel.2 * 0.2 + o.vel.2 * 0.75)
      ∧ (collideStep cr ov now s o).2.vel
        = (o.vel.1 * 0.2 + s.vel.1 * 0.75,
           o.vel.2 * 0.2 + s.vel.2 * 0.75) := by
  have hguard : o.id ≠ s.id ∧ cr s o = true
      ∧ o.entity_type = EntityType.ship := ⟨hid, hcr, ho⟩
  rw [collideStep, if_pos hguard]
  exact ⟨collidePair_fst_vel ov now s o, collidePair_snd_vel ov now s o⟩

/-- Witness for C1 at two concrete overlapping ships. -/
theorem collision_blends_velocities_witness :
    crAll entA entB = true
    ∧ ((collideStep crAll ovXonly 7 entA entB).1.vel
        = (entA.vel.1 * 0.2 + entB.vel.1 * 0.75,
           entA.vel.2 * 0.2 + entB.vel.2 * 0.75)
      ∧ (collideStep crAll ovXonly 7 entA entB).2.vel
        = (entB.vel.1 * 0.2 + entA.vel.1 * 0.75,
           entB.vel.2 * 0.2 + entA.vel.2 * 0.75)) :=
  ⟨rfl, collision_blends_velocities crAll ovXonly 7 entA entB rfl rfl
    (by decide) rfl⟩

/-- C2: the claim says a weapon fired at tick `T` cannot fire again before
`T` plus its cooldown.  The code breaks this at `T = 0`: the falsy test
`if not self.phaser_last_fired` in `check_phaser_on_cooldown` treats a
last-fired timestamp of tick 0 like `None`, so a phaser fired at tick 0
fires again on a key-down at tick 1, well inside the cooldown window.
This theorem evaluates the embedded code on that failing input: a fresh
ship fires at tick 0 (key-down then key-up of the phaser key), and a second
key-down at tick 1 fires again although `1 < 0 + PHASER_FIRE_CD`. -/
theorem phaser_refires_within_cooldown_after_tick_zero_fire :
    (runEvents conf0 ship0
        [(0, Event.keydown Key.q), (0, Event.keyup Key.q)]).phaser_last_fired
      = some 0
    ∧ (handle_events conf0
        (runEvents conf0 ship0
          [(0, Event.keydown Key.q), (0, Event.keyup Key.q)]) 1
        (Event.keydown Key.q)).phaser_last_fired = some 1
    ∧ 1 < 0 + conf0.phaserCD := by decide

/-- C3: for every ship and every event sequence, the torpedo count never
exceeds the configured maximum, because both the key-down path and the
repeat-timer path add a torpedo only when the current count is strictly
below it.  Stated as preservation from any state within the bound; a fresh
ship starts with an empty group, and every intermediate state of a run is
itself the result of a run. -/
theorem torpedo_count_never_exceeds_max (conf : Conf) (st : ShipState)
    (tr : List (Nat × Event))
    (h : st.torpedo_group.length ≤ conf.maxTorpedoes) :
    (runEvents conf st tr).torpedo_group.length ≤ conf.maxTorpedoes := by
  revert h
  induction tr generalizing st with
  | nil => exact fun h => h
  | cons e tr ih =>
      intro h
      exact ih (stepEvent conf st e) (stepEvent_torpedo_le conf st e h)

/-- Witness for C3 on a fresh ship and a concrete firing trace. -/
theorem torpedo_count_never_exceeds_max_witness :
    ship0.torpedo_group.length ≤ conf0.maxTorpedoes
    ∧ (runEvents conf0 ship0
        [(0, Event.keydown Key.e), (200, Event.rep TimerKind.torp),
          (400, Event.rep TimerKind.torp)]).torpedo_group.length
      ≤ conf0.maxTorpedoes :=
  ⟨by decide, torpedo_count_never_exceeds_max conf0 ship0
    [(0, Event.keydown Key.e), (200, Event.rep TimerKind.torp),
      (400, Event.rep TimerKind.torp)] (by decide)⟩

/-- C4: processing the key-up of a movement key (rotate-left, rotate-right
or thrust) cancels that key's repeat timer, and afterwards, as long as the
key is not pressed again, no admissible event sequence delivers a repeat
event of that timer, so no rotation or thrust increment from that key's
repeat path can occur. -/
theorem keyup_cancels_movement_repeat (conf : Conf) (st : ShipState)
    (now : Nat) (k : Key) (hk : k = Key.a ∨ k = Key.d ∨ k = Key.s)
    (ha : st.alive = true) :
    getTimer (handle_events conf st now (Event.keyup k)) (timerOfKey k)
      = none
    ∧ ∀ tr : List (Nat × Event),
        TraceOk conf (handle_events conf st now (Event.keyup k)) tr = true →
        (∀ p ∈ tr, p.2 ≠ Event.keydown k) →
        ∀ p ∈ tr, p.2 ≠ Event.rep (timerOfKey k) := by
  have h1 : getTimer (handle_events conf st now (Event.keyup k))
      (timerOfKey k) = none := by
    rcases hk with rfl | rfl | rfl <;>
      simp [handle_events, ha, handleMovement, handleFiring, getTimer,
        timerOfKey]
  exact ⟨h1, fun tr hok hkd =>
    no_rep_of_timer_none conf k hk tr _ h1 hok hkd⟩

/-- Witness for C4: releasing the rotate-left key on a live ship cancels
the rotate-left repeat timer. -/
theorem keyup_cancels_movement_repeat_witness :
    ship0.alive = true
    ∧ getTimer (handle_events conf0 ship0 3 (Event.keyup Key.a))
        (timerOfKey Key.a) = none :=
  ⟨rfl, (keyup_cancels_movement_repeat conf0 ship0 3 Key.a (Or.inl rfl)
    rfl).1⟩

/-- C5: the phaser group is a single-sprite group, so adding a newly fired
phaser replaces any existing one and the group size never exceeds one.
Stated as preservation over every event sequence from any state within the
bound; a fresh ship starts with an empty group. -/
theorem phaser_group_at_most_one (conf : Conf) (st : ShipState)
    (tr : List (Nat × Event)) (h : st.phaser_group.length ≤ 1) :
    (runEvents conf st tr).phaser_group.length ≤ 1 := by
  revert h
  induction tr generalizing st with
  | nil => exact fun h => h
  | cons e tr ih =>
      intro h
      exact ih (stepEvent conf st e) (stepEvent_phaser_le conf st e h)

/-- Witness for C5 on a fresh ship and a concrete phaser-firing trace. -/
theorem phaser_group_at_most_one_witness :
    ship0.phaser_group.length ≤ 1
    ∧ (runEvents conf0 ship0
        [(0, Event.keydown Key.q), (200, Event.rep TimerKind.phz),
          (400, Event.rep TimerKind.phz)]).phaser_group.length ≤ 1 :=
  ⟨by decide, phaser_group_at_most_one conf0 ship0
    [(0, Event.keydown Key.q), (200, Event.rep TimerKind.phz),
      (400, Event.rep TimerKind.phz)] (by decide)⟩

/-- C6: on a live ship, a key-down of a rotate key changes the angle by
exactly 22.5 degrees (decrement for rotate-left, increment for
rotate-right) and starts that key's repeat timer at the current tick, and a
key-down of the thrust key adds exactly the heading unit vector (cosine
and sine of the heading at the time of the event, in degrees converted to
radians, here the abstract host values `cosDeg` / `sinDeg`) to the
velocity and starts the thrust repeat timer.  The rotate key-downs also
set the rotation-lock flag as in the source. -/
theorem keydown_movement_effects (conf : Conf) (st : ShipState) (now : Nat)
    (ha : st.alive = true) :
    handle_events conf st now (Event.keydown Key.a)
        = {st with
            rotate_ccw_lock := true
            ang := st.ang - 22.5
            cc_timer := some now}
      ∧ handle_events conf st now (Event.keydown Key.d)
        = {st with
            rotate_ccw_lock := false
            ang := st.ang + 22.5
            cw_timer := some now}
      ∧ handle_events conf st now (Event.keydown Key.s)
        = {st with
            vel := (st.vel.1 + conf.cosDeg st.ang,
              st.vel.2 + conf.sinDeg st.ang)
            acc_timer := some now} := by
  refine ⟨?_, ?_, ?_⟩
    <;> simp [handle_events, ha, handleMovement, handleFiring]

/-- Witness for C6 on a fresh live ship at tick 7. -/
theorem keydown_movement_effects_witness :
    ship0.alive = true
    ∧ (handle_events conf0 ship0 7 (Event.keydown Key.a)
        = {ship0 with
            rotate_ccw_lock := true
            ang := ship0.ang - 22.5
            cc_timer := some 7}
      ∧ handle_events conf0 ship0 7 (Event.keydown Key.d)
        = {ship0 with
            rotate_ccw_lock := false
            ang := ship0.ang + 22.5
            cw_timer := some 7}
      ∧ handle_events conf0 ship0 7 (Event.keydown Key.s)
        = {ship0 with
            vel := (ship0.vel.1 + conf0.cosDeg ship0.ang,
              ship0.vel.2 + conf0.sinDeg ship0.ang)
            acc_timer := some 7}) :=
  ⟨rfl, keydown_movement_effects conf0 ship0 7 rfl⟩

/-- C7 (amended): on any single rotate repeat event at most one rotation
direction is applied, gated by the rotation-lock flag: a rotate-left
repeat applies the −22.5 rotation only when the lock flag is set, and a
rotate-right repeat applies the +22.5 rotation only when the lock flag is
clear.  In every case, including when the lock suppresses the rotation,
the repeat handler additionally normalizes the angle into [0, 360) by the
modulo-360 reduction, so the raw angle value can still change on a
suppressed repeat. -/
theorem rotate_repeat_guarded_by_lock (conf : Conf) (st : ShipState)
    (now : Nat) (ha : st.alive = true) :
    handle_events conf st now (Event.rep TimerKind.cc)
        = {st with
            ang := pymod
              (if st.rotate_ccw_lock then st.ang - 22.5 else st.ang) 360}
      ∧ handle_events conf st now (Event.rep TimerKind.cw)
        = {st with
            ang := pymod
              (if st.rotate_ccw_lock then st.ang else st.ang + 22.5)
              360} := by
  refine ⟨?_, ?_⟩ <;> simp [handle_events, ha, handleMovement, handleFiring]

/-- Witness for C7 on a fresh live ship at tick 9. -/
theorem rotate_repeat_guarded_by_lock_witness :
    ship0.alive = true
    ∧ (handle_events conf0 ship0 9 (Event.rep TimerKind.cc)
        = {ship0 with
            ang := pymod
              (if ship0.rotate_ccw_lock then ship0.ang - 22.5 else ship0.ang)
              360}
      ∧ handle_events conf0 ship0 9 (Event.rep TimerKind.cw)
        = {ship0 with
            ang := pymod
              (if ship0.rotate_ccw_lock then ship0.ang else ship0.ang + 22.5)
              360}) :=
  ⟨rfl, rotate_repeat_guarded_by_lock conf0 ship0 9 rfl⟩

/-- Counterexample to C7 as stated: the claim says a rotate-right repeat
event changes the angle only when the lock flag is clear.  Start a ship at
a heading of 360 degrees, press rotate-right then rotate-left (both repeat
timers now run, the lock flag is set, the angle is back at 360); the host
then delivers an admissible rotate-right repeat event, and although the
lock flag is set the angle changes from 360 to 0 through the unconditional
modulo-360 normalization. -/
theorem rotate_repeat_lock_counterexample :
    TraceOk conf0 ship360
        [(0, Event.keydown Key.d), (1, Event.keydown Key.a),
          (101, Event.rep TimerKind.cw)] = true
    ∧ (runEvents conf0 ship360
        [(0, Event.keydown Key.d),
          (1, Event.keydown Key.a)]).rotate_ccw_lock = true
    ∧ (runEvents conf0 ship360
        [(0, Event.keydown Key.d),
          (1, Event.keydown Key.a)]).cc_timer.isSome = true
    ∧ (runEvents conf0 ship360
        [(0, Event.keydown Key.d),
          (1, Event.keydown Key.a)]).cw_timer.isSome = true
    ∧ (runEvents conf0 ship360
        [(0, Event.keydown Key.d), (1, Event.keydown Key.a)]).ang = 360
    ∧ (runEvents conf0 ship360
        [(0, Event.keydown Key.d), (1, Event.keydown Key.a),
          (101, Event.rep TimerKind.cw)]).ang = 0 := by
  refine ⟨by decide, by decide, by decide, by decide, ?_, ?_⟩
    <;> simp [runEvents, stepEvent, tickAdvance, handle_events,
      handleMovement, handleFiring, setTimer, ship360, initState, conf0,
      pymod]

/-- C8 (amended): a torpedo fire attempted while the count is at the
maximum is silently suppressed: no torpedo is added, the torpedo
last-fired timestamp is unchanged and nothing is signalled.  On the
repeat path the state is fully unchanged; on the key-down path the only
state change is the unconditional (re)start of the torpedo repeat timer,
which the source performs before the cap check. -/
theorem torpedo_cap_silently_suppresses (conf : Conf) (st : ShipState)
    (now : Nat) (ha : st.alive = true)
    (hfull : conf.maxTorpedoes ≤ st.torpedo_group.length) :
    handle_events conf st now (Event.keydown Key.e)
        = {st with torp_timer := some now}
      ∧ handle_events conf st now (Event.rep TimerKind.torp) = st := by
  have hn : ¬st.torpedo_group.length < conf.maxTorpedoes := not_lt.mpr hfull
  refine ⟨?_, ?_⟩
    <;> simp [handle_events, ha, handleMovement, handleFiring, hn]

/-- Witness for C8 on a concrete ship at the cap of one torpedo. -/
theorem torpedo_cap_silently_suppresses_witness :
    conf1.maxTorpedoes ≤ shipFull.torpedo_group.length
    ∧ (handle_events conf1 shipFull 11 (Event.keydown Key.e)
        = {shipFull with torp_timer := some 11}
      ∧ handle_events conf1 shipFull 11 (Event.rep TimerKind.torp)
        = shipFull) :=
  ⟨by decide, torpedo_cap_silently_suppresses conf1 shipFull 11 rfl
    (by decide)⟩

/-- Counterexample to C8 as stated: the claim says that on a suppressed
torpedo fire the ship's state is identical to its state before the event.
On a key-down at the cap the torpedo group and last-fired timestamp are
indeed unchanged, but the state is not identical: the torpedo repeat
timer, cancelled before the event, is running afterwards. -/
theorem torpedo_cap_keydown_restarts_timer :
    handle_events conf1 shipFull 5 (Event.keydown Key.e) ≠ shipFull
    ∧ (handle_events conf1 shipFull 5 (Event.keydown Key.e)).torp_timer
        = some 5
    ∧ shipFull.torp_timer = none
    ∧ (handle_events conf1 shipFull 5 (Event.keydown Key.e)).torpedo_group
        = shipFull.torpedo_group
    ∧ (handle_events conf1 shipFull 5
        (Event.keydown Key.e)).torpedo_last_fired
        = shipFull.torpedo_last_fired := by decide

/-- C9: in the collision response of `BaseShip.update`, for an overlapping
ship pair only the second ship's position is modified: on each axis whose
overlap flag is set the second ship's position is shifted by its own
already-blended velocity on that axis, while the first ship's position,
and every axis of the second ship's position without overlap, are left
unchanged by the collision branch. -/
theorem collision_moves_only_second_ship (cr : Entity → Entity → Bool)
    (ov : Entity → Entity → Bool × Bool) (now : Nat) (s o : Entity)
    (_hs : s.entity_type = EntityType.ship)
    (ho : o.entity_type = EntityType.ship)
    (hid : o.id ≠ s.id) (hcr : cr s o = true) :
    (collideStep cr ov now s o).1.pos = s.pos
      ∧ (collideStep cr ov now s o).2.pos
        = ((if (collideFlags ov now s o).1 then
              o.pos.1 + (blendVel s o).2.vel.1 else o.pos.1),
           (if (collideFlags ov now s o).2 then
              o.pos.2 + (blendVel s o).2.vel.2 else o.pos.2)) := by
  have hguard : o.id ≠ s.id ∧ cr s o = true
      ∧ o.entity_type = EntityType.ship := ⟨hid, hcr, ho⟩
  rw [collideStep, if_pos hguard]
  exact ⟨collidePair_fst_pos ov now s o, collidePair_snd_pos ov now s o⟩

/-- Witness for C9 at two concrete overlapping ships with overlap on the
x axis only. -/
theorem collision_moves_only_second_ship_witness :
    crAll entA entB = true
    ∧ ((collideStep crAll ovXonly 7 entA entB).1.pos = entA.pos
      ∧ (collideStep crAll ovXonly 7 entA entB).2.pos
        = ((if (collideFlags ovXonly 7 entA entB).1 then
              entB.pos.1 + (blendVel entA entB).2.vel.1 else entB.pos.1),
           (if (collideFlags ovXonly 7 entA entB).2 then
              entB.pos.2 + (blendVel entA entB).2.vel.2
            else entB.pos.2))) :=
  ⟨rfl, collision_moves_only_second_ship crAll ovXonly 7 entA entB rfl rfl
    (by decide) rfl⟩

/-- C10: if the ship sprite is not alive, `HumanShip.handle_events`
returns before dispatching to the movement or weapon handlers, leaving
the whole ship state — angle, velocity, lock flag, timers, projectile
groups and last-fired timestamps — unchanged, for every event. -/
theorem dead_ship_handle_events_noop (conf : Conf) (st : ShipState)
    (h : st.alive = false) (now : Nat) (ev : Event) :
    handle_events conf st now ev = st := by
  simp [handle_events, h]

/-- Witness for C10 on a concrete dead ship. -/
theorem dead_ship_handle_events_noop_witness :
    shipDead.alive = false
    ∧ handle_events conf0 shipDead 3 (Event.keydown Key.a) = shipDead :=
  ⟨rfl, dead_ship_handle_events_noop conf0 shipDead rfl 3
    (Event.keydown Key.a)⟩
